import Mathlib

/-!
Verification of the conversational movie-agent orchestration core.

This file gives a shallow embedding, in Lean 4, of the workflow controller
(`convai/graph/graph.py`), the four stage components
(`convai/graph/nodes/*.py`), the history-formatting helper
(`convai/utils/__init__.py`) and the HTTP message endpoints
(`convai/app.py`), together with theorems settling the specification
claims about them.

External capability calls (LLM chains, the SQL tool agent, the graph
engine invocation) are modelled as explicit function parameters returning
`Except String α`: `Except.error m` models the Python call raising an
exception whose string rendering is `m`, and `Except.ok v` models a normal
return.  Python string truthiness (`if state.get("error")`) is modelled
explicitly: an `Option String` field is "truthy" exactly when it is
`some e` with `e` nonempty.
-/

set_option maxRecDepth 8192

namespace ConvAI

/-- Substring containment: `substrOf pat s` holds when `pat` occurs
contiguously inside `s`. -/
def substrOf (pat s : String) : Prop :=
  pat.data <:+: s.data

instance (pat s : String) : Decidable (substrOf pat s) := by
  unfold substrOf
  infer_instance

/-- A string always contains the second summand of a concatenation. -/
theorem substrOf_append_right (p e : String) : substrOf e (p ++ e) := by
  refine ⟨p.data, [], ?_⟩
  simp [substrOf]

/-- The seven user-intent categories of `IntentType` in
`convai/data/schemas.py`. -/
inductive IntentType where
  | RECOMMENDATION
  | SPECIFIC_MOVIE
  | GENRE_EXPLORATION
  | COMPARISON
  | TOP_RATED
  | SIMILAR_MOVIES
  | GENERAL_QUESTION
deriving DecidableEq, Repr

/-- String value of an `IntentType` member (`.value` in Python). -/
def IntentType.value : IntentType → String
  | .RECOMMENDATION => "RECOMMENDATION"
  | .SPECIFIC_MOVIE => "SPECIFIC_MOVIE"
  | .GENRE_EXPLORATION => "GENRE_EXPLORATION"
  | .COMPARISON => "COMPARISON"
  | .TOP_RATED => "TOP_RATED"
  | .SIMILAR_MOVIES => "SIMILAR_MOVIES"
  | .GENERAL_QUESTION => "GENERAL_QUESTION"

/-- `IntentClassification` of `convai/data/schemas.py`: intent category,
confidence in [0,1] and free-text reasoning.  Confidence is modelled as a
rational number; no claim computes with it. -/
structure IntentClassification where
  intent : IntentType
  confidence : Rat
  reasoning : String
deriving DecidableEq, Repr

/-- `ExtractedEntities` of `convai/data/schemas.py`.  All fields are
optional or default-empty: absence means "not mentioned by the user". -/
structure ExtractedEntities where
  movie_titles : List String := []
  genres : List String := []
  year_min : Option Int := none
  year_max : Option Int := none
  rating_preference : Option String := none
  min_rating : Option Rat := none
deriving DecidableEq, Repr

/-- `RouterDecision` of `convai/data/schemas.py`.  In the source, `route`
is a pydantic `Literal["intent_classification", "ask_clarification"]`;
we model it as a `String` and note the restriction where relevant. -/
structure RouterDecision where
  route : String
  confidence : Rat
  reason : String
  clarification_message : String := ""
deriving DecidableEq, Repr

/-- The `GraphState` record of `convai/graph/state.py` (with the `route`
and `retry_count` entries the code also stores in the state dict).
Optional entries that a Python dict may lack are `Option`-valued. -/
structure GraphState where
  user_query : String
  conversation_history : List (String × String)
  route : Option String := none
  intent : Option IntentClassification := none
  entities : Option ExtractedEntities := none
  final_response : Option String := none
  error : Option String := none
  retry_count : Nat := 0
deriving DecidableEq, Repr

/-- Python truthiness of an optional string field: `None` and the empty
string are falsy, any other string is truthy. -/
def optStrTruthy : Option String → Bool
  | none => false
  | some s => !(s == "")

namespace SmartRouter

/-- `SmartRouter.route_query` of `convai/graph/nodes/smart_router.py`.
The structured-output chain call is the parameter `chain`; it receives the
user query and the conversation history.  On a normal return the route is
stored in the state and, when the decision carries a nonempty
clarification message, that message is stored as the final response; on a
raised exception the error field is set and the state is returned. -/
def route_query (chain : String → List (String × String) → Except String RouterDecision)
    (state : GraphState) : GraphState :=
  match chain state.user_query state.conversation_history with
  | .ok result =>
      let s := { state with route := some result.route }
      if result.clarification_message == "" then s
      else { s with final_response := some result.clarification_message }
  | .error e => { state with error := some ("Route extraction failed: " ++ e) }

end SmartRouter

namespace IntentExtractor

/-- `IntentExtractor.classify_intent` of
`convai/graph/nodes/intent_extractor.py`.  The chain call receives the
user query; on success the classification is stored, on a raised
exception the error field is set. -/
def classify_intent (chain : String → Except String IntentClassification)
    (state : GraphState) : GraphState :=
  match chain state.user_query with
  | .ok result => { state with intent := some result }
  | .error e => { state with error := some ("Intent classification failed: " ++ e) }

end IntentExtractor

namespace EntityExtractor

/-- `EntityExtractor.extract_entities` of
`convai/graph/nodes/entity_extractor.py`.  When the intent is absent the
code raises `ValueError("Intent must be classified before entity
extraction")` inside its own `try`, so the handler stores the message in
the error field; the chain is never invoked on that path. -/
def extract_entities (chain : String → String → Except String ExtractedEntities)
    (state : GraphState) : GraphState :=
  match state.intent with
  | none =>
      { state with
        error :=
          some "Entity extraction failed: Intent must be classified before entity extraction" }
  | some i =>
      match chain state.user_query i.intent.value with
      | .ok result => { state with entities := some result }
      | .error e => { state with error := some ("Entity extraction failed: " ++ e) }

end EntityExtractor

namespace Agent

/-- `Agent.generate_and_execute` of `convai/graph/nodes/agent.py`.  When
intent or entities are absent the code raises
`ValueError("Intent and entities must be extracted before Agent
Invocation")` inside its own `try`, so the handler stores the message in
the error field; the tool-calling agent stream (parameter `agentRun`) is
never consulted on that path.  On a normal stream the last message
content becomes the final response. -/
def generate_and_execute (agentRun : GraphState → Except String String)
    (state : GraphState) : GraphState :=
  if state.intent = none ∨ state.entities = none then
    { state with
      error :=
        some "Tool Calling generation/execution failed: Intent and entities must be extracted before Agent Invocation" }
  else
    match agentRun state with
    | .ok content => { state with final_response := some content }
    | .error e =>
        { state with
          error := some ("Tool Calling generation/execution failed: " ++ e) }

end Agent

end ConvAI

namespace ConvAI

namespace MovieAgentGraph

/-- `MovieAgentGraph._check_for_errors` of `convai/graph/graph.py`
(lines 106-120): selects the edge label "error" exactly when the error
field of the state is truthy, and "continue" otherwise. -/
def check_for_errors (state : GraphState) : String :=
  if optStrTruthy state.error then "error" else "continue"

/-- `MovieAgentGraph._error_node` of `convai/graph/graph.py`
(lines 98-104): synthesizes the user-facing error response embedding the
error detail.  Inside the Python f-string, `state.get('error')` renders a
missing error as the text "None". -/
def error_node (state : GraphState) : GraphState :=
  { state with
    final_response := some ("I encountered an error processing your query: " ++
      (match state.error with | some e => e | none => "None")) }

/-- One run of the compiled graph built by `MovieAgentGraph._build_graph`
(graph.py lines 56-90), together with the list of node names executed, in
order.  The wiring in the source is: `START → intent_classification`,
then a conditional edge on `_check_for_errors` mapping "continue" to
`END` and "error" to `error_handler`, and `error_handler → END`.  The
intent node delegates to `IntentExtractor.classify_intent`, whose
external chain call is the parameter `chain`. -/
def graphRun (chain : String → Except String IntentClassification)
    (state : GraphState) : List String × GraphState :=
  let s1 := IntentExtractor.classify_intent chain state
  if check_for_errors s1 == "error" then
    (["intent_classification", "error_handler"], error_node s1)
  else
    (["intent_classification"], s1)

/-- The terminal state computed by one run of the compiled graph. -/
def graphInvoke (chain : String → Except String IntentClassification)
    (state : GraphState) : GraphState :=
  (graphRun chain state).2

/-- The initial `GraphState` built by `MovieAgentGraph.query`
(graph.py lines 136-143): fresh state with outputs and error unset.
(`conversation_history or []` leaves a provided list unchanged and turns
an empty one into `[]`, which is the same list value.) -/
def initialState (user_query : String)
    (conversation_history : List (String × String)) : GraphState :=
  { user_query := user_query
    conversation_history := conversation_history
    intent := none
    final_response := none
    error := none
    retry_count := 0 }

/-- `MovieAgentGraph.query` of `convai/graph/graph.py` (lines 123-162).
The graph-engine invocation `self.graph.invoke(initial_state)` is the
parameter `invoke`; `Except.error e` models it raising.  A raised
invocation is logged and re-raised, so it propagates to the caller.  On a
normal return the source ignores the returned final state and returns
the hardcoded string `response = "sample response"` (line 159). -/
def query (invoke : GraphState → Except String GraphState)
    (user_query : String) (conversation_history : List (String × String)) :
    Except String String :=
  match invoke (initialState user_query conversation_history) with
  | .error e => .error e
  | .ok _ => .ok "sample response"

/-- Modelled from the spec: the generic fallback clarification prompt
surfaced by the clarification terminal when the router provided no
clarification message.  The node that holds it (`_clarification_node`)
is absent from `src` graph.py and referenced only by the repository's
tests; the prompt text is the one those tests assert on. -/
def fallback_clarification : String := "Please ask a question about movies."

/-- Modelled from the spec: the clarification terminal node
(`_clarification_node`, absent from `src` graph.py, referenced by the
tests).  Per the spec it surfaces the router-provided clarification
message verbatim — already stored in the final response by
`SmartRouter.route_query` — or the generic fallback prompt if none was
provided. -/
def clarification_node (state : GraphState) : GraphState :=
  if optStrTruthy state.final_response then state
  else { state with final_response := some fallback_clarification }

/-- Modelled from the spec: the routing branch after the router stage
(`_router_decision`, absent from `src` graph.py, referenced by the
tests).  With an error set it selects the error terminal; otherwise the
route value "intent_classification" (the spec's "proceed") selects the
intent stage and any other route value — "ask_clarification" or
unrecognized — selects the clarification terminal. -/
def router_decision (state : GraphState) : String :=
  if optStrTruthy state.error then "error"
  else if state.route == some "intent_classification" then "intent_classification"
  else "ask_clarification"

/-- Modelled from the spec: the full controller wiring of spec section
4.1 — `routing → {intent_classification | clarification_terminal}` and
an error check before each later transition — which is absent from `src`
graph.py (it wires only the intent node); the repository's tests exercise
this wiring.  Stage-external calls are the four function parameters.
Returns the executed node names, in order, with the terminal state. -/
def fullGraphRun
    (routerChain : String → List (String × String) → Except String RouterDecision)
    (intentChain : String → Except String IntentClassification)
    (entityChain : String → String → Except String ExtractedEntities)
    (agentRun : GraphState → Except String String)
    (state : GraphState) : List String × GraphState :=
  let s1 := SmartRouter.route_query routerChain state
  if router_decision s1 == "error" then
    (["smart_router", "error_handler"], error_node s1)
  else if router_decision s1 == "ask_clarification" then
    (["smart_router", "ask_clarification"], clarification_node s1)
  else
    let s2 := IntentExtractor.classify_intent intentChain s1
    if check_for_errors s2 == "error" then
      (["smart_router", "intent_classification", "error_handler"], error_node s2)
    else
      let s3 := EntityExtractor.extract_entities entityChain s2
      if check_for_errors s3 == "error" then
        (["smart_router", "intent_classification", "entity_extraction",
          "error_handler"], error_node s3)
      else
        let s4 := Agent.generate_and_execute agentRun s3
        if check_for_errors s4 == "error" then
          (["smart_router", "intent_classification", "entity_extraction",
            "tool_agent", "error_handler"], error_node s4)
        else
          (["smart_router", "intent_classification", "entity_extraction",
            "tool_agent"], s4)

/-- Modelled from the spec: the controller run over the full wiring,
returning the `final_response` field of the Workflow State at the
terminal state ("Terminal output: the final_response field of the
Workflow State at the terminal state"). -/
def fullRun
    (routerChain : String → List (String × String) → Except String RouterDecision)
    (intentChain : String → Except String IntentClassification)
    (entityChain : String → String → Except String ExtractedEntities)
    (agentRun : GraphState → Except String String)
    (user_query : String) (history : List (String × String)) : String :=
  ((fullGraphRun routerChain intentChain entityChain agentRun
      (initialState user_query history)).2.final_response).getD ""

end MovieAgentGraph

/-- `ChatMessage` of `convai/data/schemas.py`.  Opaque identifiers
(UUIDs) and timestamps are modelled as natural numbers. -/
structure ChatMessage where
  message_id : Nat
  role : String
  content : String
  timestamp : Nat
deriving DecidableEq, Repr

/-- `MessageResponse` of `convai/data/schemas.py`. -/
structure MessageResponse where
  message_id : Nat
  user_message : String
  assistant_response : String
  timestamp : Nat
deriving DecidableEq, Repr

/-- `format_history_for_llm` of `convai/utils/__init__.py`: the Python
loop starts from an empty list and appends one {role, content} pair per
message, in order. -/
def format_history_for_llm (history : List ChatMessage) : List (String × String) :=
  history.foldl (fun acc msg => acc ++ [(msg.role, msg.content)]) []

namespace App

/-- Validation of `ChatMessageRequest` (`convai/data/schemas.py` lines
9-13: `message: str = Field(..., min_length=1)`) as enforced by the
framework before the handler body runs: a request body without a
`message` field (modelled as `none`) or with a message shorter than one
character is rejected; otherwise the message is accepted. -/
def validateChatMessageRequest : Option String → Option String
  | none => none
  | some m => if m.length < 1 then none else some m

/-- Lookup in the in-memory `conversations` store (a dict keyed by
session id, modelled as an association list). -/
def convLookup (conversations : List (Nat × List ChatMessage)) (sid : Nat) :
    Option (List ChatMessage) :=
  (conversations.find? (fun p => p.1 == sid)).map Prod.snd

/-- Dict-style update of the `conversations` store: replace the entry
when the key is present, otherwise add it. -/
def convSet (conversations : List (Nat × List ChatMessage)) (sid : Nat)
    (msgs : List ChatMessage) : List (Nat × List ChatMessage) :=
  if (conversations.find? (fun p => p.1 == sid)).isSome then
    conversations.map (fun p => if p.1 == sid then (p.1, msgs) else p)
  else
    conversations ++ [(sid, msgs)]

/-- `send_message` of `convai/app.py` (lines 89-152), composed with the
framework's request-body validation, which runs first.  The result pairs
the HTTP outcome (`Except.error (status, detail)` models a raised
`HTTPException`) with the conversations store after the call.  The
controller invocation (`generate_assistant_response`, which fetches the
stored history, formats it and calls the workflow) is the parameter
`controller`; `Except.error e` models it raising.  Fresh identifiers and
timestamps (`uuid4()` / `get_current_time()`) are supplied as
parameters. -/
def send_message (sessions : List Nat)
    (conversations : List (Nat × List ChatMessage))
    (controller : String → List (String × String) → Except String String)
    (session_id : Nat) (body : Option String)
    (message_id assistant_msg_id timestamp assistant_timestamp : Nat) :
    Except (Nat × String) MessageResponse × List (Nat × List ChatMessage) :=
  match validateChatMessageRequest body with
  | none => (.error (422, "validation error"), conversations)
  | some message =>
    if session_id ∈ sessions then
      let history := (convLookup conversations session_id).getD []
      match controller message (format_history_for_llm history) with
      | .ok assistant_response =>
          let user_msg : ChatMessage :=
            ⟨message_id, "user", message, timestamp⟩
          let assistant_msg : ChatMessage :=
            ⟨assistant_msg_id, "assistant", assistant_response, assistant_timestamp⟩
          (.ok ⟨message_id, message, assistant_response, timestamp⟩,
           convSet conversations session_id (history ++ [user_msg, assistant_msg]))
      | .error e => (.error (500, "Error processing message: " ++ e), conversations)
    else
      (.error (404, "Session " ++ toString session_id ++ " not found"), conversations)

/-- `get_messages` of `convai/app.py` (lines 160-189).  The `limit`
query parameter is declared `Query(10, ge=1, le=100)`; the framework
rejects values outside [1, 100] before the handler runs, so the handler
is modelled for an accepted limit.  `conversation[-limit:]` for a
positive limit keeps the last `limit` elements. -/
def get_messages (sessions : List Nat)
    (conversations : List (Nat × List ChatMessage))
    (session_id : Nat) (limit : Nat) :
    Except (Nat × String) (List ChatMessage) :=
  if session_id ∈ sessions then
    let conversation := (convLookup conversations session_id).getD []
    .ok (if conversation.length > limit then
           conversation.drop (conversation.length - limit)
         else conversation)
  else
    .error (404, "Session " ++ toString session_id ++ " not found")

end App

/-- Appending to a nonempty string yields a nonempty string. -/
theorem append_ne_empty_left (p m : String) (hp : p.data ≠ []) : p ++ m ≠ "" := by
  intro hcontr
  apply hp
  have hdata : (p ++ m).data = [] := by rw [hcontr]
  have : p.data ++ m.data = [] := hdata
  exact (List.append_eq_nil.mp this).1

/-- A nonempty string is truthy as an optional value. -/
theorem optStrTruthy_some_of_ne (s : String) (h : s ≠ "") :
    optStrTruthy (some s) = true := by
  simp [optStrTruthy, h]

/-- The Python history loop computes the elementwise {role, content}
projection, for any accumulator. -/
theorem format_foldl_eq (l : List ChatMessage) :
    ∀ acc : List (String × String),
      l.foldl (fun a msg => a ++ [(msg.role, msg.content)]) acc =
        acc ++ l.map (fun msg => (msg.role, msg.content)) := by
  induction l with
  | nil => intro acc; simp
  | cons x xs ih => intro acc; simp [List.foldl_cons, ih]

/-- Keeping the last `n` elements of a list is the same as taking `n`
from the reversed list and restoring the order. -/
theorem lastN_eq (α : Type) (L : List α) (n : Nat) :
    (if L.length > n then L.drop (L.length - n) else L) =
      (L.reverse.take n).reverse := by
  rw [List.take_reverse, List.reverse_reverse]
  by_cases hlen : L.length > n
  · simp [hlen]
  · have hle : L.length ≤ n := Nat.le_of_not_lt hlen
    have : L.length - n = 0 := Nat.sub_eq_zero_of_le hle
    simp [hlen, this]

/-- Nonempty validated messages pass `ChatMessageRequest` validation
unchanged. -/
theorem validate_some_of_ne (m : String) (hm : m ≠ "") :
    App.validateChatMessageRequest (some m) = some m := by
  unfold App.validateChatMessageRequest
  have : ¬ m.length < 1 := by
    intro hlt
    apply hm
    have hz : m.length = 0 := Nat.lt_one_iff.mp hlt
    have hdata : m.data.length = 0 := hz
    exact (String.ext (List.length_eq_zero.mp hdata)).symm ▸ rfl
  simp [this]

/-- C1: the claim fails on the source.  `MovieAgentGraph.query` returns
the hardcoded constant "sample response" (graph.py line 159) and
discards the terminal state entirely.  Evaluated at the input of the
repository's own test `test_query_with_conversation_history`, whose
graph invocation terminates with final_response "Response with history"
and which asserts that `query` returns that string, the run returns
"sample response" instead. -/
theorem c1_query_ignores_final_response :
    (MovieAgentGraph.query
      (fun _ => .ok
        { user_query := "What are top movies?"
          conversation_history :=
            [("user", "What are the top rated movies?"),
             ("assistant", "Here are some top rated movies...")]
          route := some "intent_classification"
          final_response := some "Response with history" })
      "What are top movies?"
      [("user", "What are the top rated movies?"),
       ("assistant", "Here are some top rated movies...")]
      = .ok "sample response")
    ∧ "sample response" ≠ "Response with history" := by
  exact ⟨rfl, by decide⟩

/-- C2: in every workflow run of the source graph, once a stage sets the
error field — the intent stage, via a failing external call, is the only
stage wired before the terminal check — only the error-handling terminal
node executes afterwards, and the final response at the terminal state
embeds the literal error detail string recorded by the stage. -/
theorem c2_error_short_circuit
    (chain : String → Except String IntentClassification)
    (q : String) (h : List (String × String)) (m : String)
    (hfail : chain q = .error m) :
    (MovieAgentGraph.graphRun chain (MovieAgentGraph.initialState q h)).1 =
      ["intent_classification", "error_handler"] ∧
    (MovieAgentGraph.graphInvoke chain (MovieAgentGraph.initialState q h)).error =
      some ("Intent classification failed: " ++ m) ∧
    (MovieAgentGraph.graphInvoke chain (MovieAgentGraph.initialState q h)).final_response =
      some ("I encountered an error processing your query: " ++
        ("Intent classification failed: " ++ m)) ∧
    substrOf ("Intent classification failed: " ++ m)
      ("I encountered an error processing your query: " ++
        ("Intent classification failed: " ++ m)) := by
  have hne : ("Intent classification failed: " ++ m) ≠ "" :=
    append_ne_empty_left _ m (by decide)
  have htr : optStrTruthy (some ("Intent classification failed: " ++ m)) = true :=
    optStrTruthy_some_of_ne _ hne
  have hs1 : IntentExtractor.classify_intent chain (MovieAgentGraph.initialState q h) =
      { MovieAgentGraph.initialState q h with
        error := some ("Intent classification failed: " ++ m) } := by
    unfold IntentExtractor.classify_intent
    rw [show (MovieAgentGraph.initialState q h).user_query = q from rfl, hfail]
    rfl
  have hrun : MovieAgentGraph.graphRun chain (MovieAgentGraph.initialState q h) =
      (["intent_classification", "error_handler"],
        MovieAgentGraph.error_node
          { MovieAgentGraph.initialState q h with
            error := some ("Intent classification failed: " ++ m) }) := by
    unfold MovieAgentGraph.graphRun
    rw [hs1]
    simp [MovieAgentGraph.check_for_errors, htr]
  refine ⟨?_, ?_, ?_, substrOf_append_right _ _⟩
  · rw [hrun]
  · unfold MovieAgentGraph.graphInvoke
    rw [hrun]
    rfl
  · unfold MovieAgentGraph.graphInvoke
    rw [hrun]
    rfl

/-- Witness for C2 at a concrete failing intent call. -/
theorem c2_error_short_circuit_witness :
    ((fun (_ : String) => (Except.error "boom" : Except String IntentClassification))
        "What?" = .error "boom") ∧
    (MovieAgentGraph.graphRun (fun _ => .error "boom")
      (MovieAgentGraph.initialState "What?" [])).1 =
      ["intent_classification", "error_handler"] ∧
    (MovieAgentGraph.graphInvoke (fun _ => .error "boom")
      (MovieAgentGraph.initialState "What?" [])).final_response =
      some "I encountered an error processing your query: Intent classification failed: boom" := by
  have h := c2_error_short_circuit (fun _ => .error "boom") "What?" [] "boom" rfl
  exact ⟨rfl, h.1, h.2.2.1.trans (by decide)⟩

/-- C4: each of the four stages, when its external capability call
raises, does not raise to its caller: it returns the input state with
only the error field changed, set to a message embedding the failure
detail.  For the Entity Extractor and the Answer Generator the external
call is reached only when their preconditions hold. -/
theorem c4_stage_failure_captured (m : String) (s : GraphState) :
    (SmartRouter.route_query (fun _ _ => .error m) s =
        { s with error := some ("Route extraction failed: " ++ m) } ∧
      substrOf m ("Route extraction failed: " ++ m)) ∧
    (IntentExtractor.classify_intent (fun _ => .error m) s =
        { s with error := some ("Intent classification failed: " ++ m) } ∧
      substrOf m ("Intent classification failed: " ++ m)) ∧
    (s.intent ≠ none →
      EntityExtractor.extract_entities (fun _ _ => .error m) s =
          { s with error := some ("Entity extraction failed: " ++ m) } ∧
        substrOf m ("Entity extraction failed: " ++ m)) ∧
    (s.intent ≠ none → s.entities ≠ none →
      Agent.generate_and_execute (fun _ => .error m) s =
          { s with error := some ("Tool Calling generation/execution failed: " ++ m) } ∧
        substrOf m ("Tool Calling generation/execution failed: " ++ m)) := by
  refine ⟨⟨rfl, substrOf_append_right _ _⟩, ⟨rfl, substrOf_append_right _ _⟩, ?_, ?_⟩
  · intro hi
    match hs : s.intent with
    | none => exact absurd hs hi
    | some i =>
        constructor
        · unfold EntityExtractor.extract_entities
          rw [hs]
        · exact substrOf_append_right _ _
  · intro hi he
    constructor
    · unfold Agent.generate_and_execute
      have : ¬ (s.intent = none ∨ s.entities = none) := by
        intro hor
        cases hor with
        | inl h1 => exact hi h1
        | inr h2 => exact he h2
      simp [this]
    · exact substrOf_append_right _ _

/-- Witness for C4 at a concrete state with intent and entities present. -/
theorem c4_stage_failure_captured_witness :
    ({ user_query := "q", conversation_history := []
       intent := some ⟨IntentType.TOP_RATED, 1, "r"⟩
       entities := some {} } : GraphState).intent ≠ none ∧
    ({ user_query := "q", conversation_history := []
       intent := some ⟨IntentType.TOP_RATED, 1, "r"⟩
       entities := some {} } : GraphState).entities ≠ none ∧
    (SmartRouter.route_query (fun _ _ => .error "boom")
      { user_query := "q", conversation_history := []
        intent := some ⟨IntentType.TOP_RATED, 1, "r"⟩
        entities := some {} }).error = some "Route extraction failed: boom" ∧
    (EntityExtractor.extract_entities (fun _ _ => .error "boom")
      { user_query := "q", conversation_history := []
        intent := some ⟨IntentType.TOP_RATED, 1, "r"⟩
        entities := some {} }).error = some "Entity extraction failed: boom" ∧
    (Agent.generate_and_execute (fun _ => .error "boom")
      { user_query := "q", conversation_history := []
        intent := some ⟨IntentType.TOP_RATED, 1, "r"⟩
        entities := some {} }).error =
      some "Tool Calling generation/execution failed: boom" := by
  have h := c4_stage_failure_captured "boom"
    { user_query := "q", conversation_history := []
      intent := some ⟨IntentType.TOP_RATED, 1, "r"⟩
      entities := some {} }
  refine ⟨by decide, by decide, ?_, ?_, ?_⟩
  · rw [h.1.1]
    decide
  · rw [(h.2.2.1 (by decide)).1]
    decide
  · rw [(h.2.2.2 (by decide) (by decide)).1]
    decide

/-- C5 as stated is false at a concrete input: with intent absent, the
Entity Extractor records the error message "Entity extraction failed:
Intent must be classified before entity extraction", which does not
contain the literal string "intent" (only the capitalized "Intent"). -/
theorem c5_counterexample :
    (EntityExtractor.extract_entities (fun _ _ => .error "x")
        { user_query := "Show me action movies", conversation_history := [] }).error =
      some "Entity extraction failed: Intent must be classified before entity extraction" ∧
    ¬ substrOf "intent"
        "Entity extraction failed: Intent must be classified before entity extraction" := by
  exact ⟨by decide, by decide⟩

/-- C5 amended: with intent absent, the Entity Extractor sets the error
to a message containing the capitalized "Intent" (so "intent" matched
case-insensitively) and never consults the external capability; with
intent or entities absent, the Answer Generator sets the error and never
consults the external capability. -/
theorem c5_ordering_violation
    (c₁ c₂ : String → String → Except String ExtractedEntities)
    (a₁ a₂ : GraphState → Except String String)
    (s t : GraphState)
    (hs : s.intent = none) (ht : t.intent = none ∨ t.entities = none) :
    EntityExtractor.extract_entities c₁ s = EntityExtractor.extract_entities c₂ s ∧
    (EntityExtractor.extract_entities c₁ s).error =
      some "Entity extraction failed: Intent must be classified before entity extraction" ∧
    substrOf "Intent"
      "Entity extraction failed: Intent must be classified before entity extraction" ∧
    Agent.generate_and_execute a₁ t = Agent.generate_and_execute a₂ t ∧
    (Agent.generate_and_execute a₁ t).error =
      some "Tool Calling generation/execution failed: Intent and entities must be extracted before Agent Invocation" := by
  have hagent : ∀ a : GraphState → Except String String,
      Agent.generate_and_execute a t =
        { t with
          error :=
            some "Tool Calling generation/execution failed: Intent and entities must be extracted before Agent Invocation" } := by
    intro a
    unfold Agent.generate_and_execute
    have : t.intent = none ∨ t.entities = none := ht
    simp [this]
  refine ⟨?_, ?_, by decide, ?_, ?_⟩
  · unfold EntityExtractor.extract_entities
    rw [hs]
  · unfold EntityExtractor.extract_entities
    rw [hs]
  · rw [hagent a₁, hagent a₂]
  · rw [hagent a₁]

/-- Witness for C5 (amended) at concrete states lacking intent. -/
theorem c5_ordering_violation_witness :
    (({ user_query := "Show me action movies",
        conversation_history := [] } : GraphState).intent = none) ∧
    (EntityExtractor.extract_entities (fun _ _ => .error "a")
        { user_query := "Show me action movies", conversation_history := [] } =
      EntityExtractor.extract_entities (fun _ _ => .error "b")
        { user_query := "Show me action movies", conversation_history := [] }) ∧
    (Agent.generate_and_execute (fun _ => .error "a")
        { user_query := "Test query", conversation_history := [] }).error =
      some "Tool Calling generation/execution failed: Intent and entities must be extracted before Agent Invocation" := by
  have h := c5_ordering_violation
    (fun _ _ => .error "a") (fun _ _ => .error "b")
    (fun _ => .error "a") (fun _ => .error "b")
    { user_query := "Show me action movies", conversation_history := [] }
    { user_query := "Test query", conversation_history := [] }
    rfl (Or.inl rfl)
  exact ⟨rfl, h.1, h.2.2.2.2⟩

/-- C3: on the full controller wiring modelled from the spec, whenever
the Router returns any route other than "intent_classification" (the
spec's "proceed"), the run takes the clarification branch and returns
the router-provided clarification message verbatim when one is present,
and the nonempty generic fallback prompt when the message is empty. -/
theorem c3_clarification_branch
    (dec : RouterDecision)
    (intentChain : String → Except String IntentClassification)
    (entityChain : String → String → Except String ExtractedEntities)
    (agentRun : GraphState → Except String String)
    (q : String) (h : List (String × String))
    (hroute : dec.route ≠ "intent_classification") :
    (MovieAgentGraph.fullGraphRun (fun _ _ => .ok dec) intentChain entityChain
        agentRun (MovieAgentGraph.initialState q h)).1 =
      ["smart_router", "ask_clarification"] ∧
    MovieAgentGraph.fullRun (fun _ _ => .ok dec) intentChain entityChain agentRun q h =
      (if dec.clarification_message = "" then MovieAgentGraph.fallback_clarification
       else dec.clarification_message) ∧
    MovieAgentGraph.fallback_clarification ≠ "" := by
  by_cases hmsg : dec.clarification_message = ""
  · have hs1 : SmartRouter.route_query (fun _ _ => .ok dec)
        (MovieAgentGraph.initialState q h) =
        { MovieAgentGraph.initialState q h with route := some dec.route } := by
      unfold SmartRouter.route_query
      simp [hmsg]
    have hdec : MovieAgentGraph.router_decision
        { MovieAgentGraph.initialState q h with route := some dec.route } =
        "ask_clarification" := by
      unfold MovieAgentGraph.router_decision
      simp [MovieAgentGraph.initialState, optStrTruthy, hroute]
    have hrun : MovieAgentGraph.fullGraphRun (fun _ _ => .ok dec) intentChain
        entityChain agentRun (MovieAgentGraph.initialState q h) =
        (["smart_router", "ask_clarification"],
          MovieAgentGraph.clarification_node
            { MovieAgentGraph.initialState q h with route := some dec.route }) := by
      unfold MovieAgentGraph.fullGraphRun
      rw [hs1]
      simp [hdec]
    have hcl : MovieAgentGraph.clarification_node
        { MovieAgentGraph.initialState q h with route := some dec.route } =
        { MovieAgentGraph.initialState q h with
          route := some dec.route
          final_response := some MovieAgentGraph.fallback_clarification } := by
      unfold MovieAgentGraph.clarification_node
      simp [MovieAgentGraph.initialState, optStrTruthy]
    refine ⟨by rw [hrun], ?_, by decide⟩
    unfold MovieAgentGraph.fullRun
    rw [hrun]
    simp [hcl, hmsg]
  · have hs1 : SmartRouter.route_query (fun _ _ => .ok dec)
        (MovieAgentGraph.initialState q h) =
        { MovieAgentGraph.initialState q h with
          route := some dec.route
          final_response := some dec.clarification_message } := by
      unfold SmartRouter.route_query
      simp [hmsg]
    have hdec : MovieAgentGraph.router_decision
        { MovieAgentGraph.initialState q h with
          route := some dec.route
          final_response := some dec.clarification_message } =
        "ask_clarification" := by
      unfold MovieAgentGraph.router_decision
      simp [MovieAgentGraph.initialState, optStrTruthy, hroute]
    have hrun : MovieAgentGraph.fullGraphRun (fun _ _ => .ok dec) intentChain
        entityChain agentRun (MovieAgentGraph.initialState q h) =
        (["smart_router", "ask_clarification"],
          MovieAgentGraph.clarification_node
            { MovieAgentGraph.initialState q h with
              route := some dec.route
              final_response := some dec.clarification_message }) := by
      unfold MovieAgentGraph.fullGraphRun
      rw [hs1]
      simp [hdec]
    have hcl : MovieAgentGraph.clarification_node
        { MovieAgentGraph.initialState q h with
          route := some dec.route
          final_response := some dec.clarification_message } =
        { MovieAgentGraph.initialState q h with
          route := some dec.route
          final_response := some dec.clarification_message } := by
      unfold MovieAgentGraph.clarification_node
      simp [MovieAgentGraph.initialState, optStrTruthy, hmsg]
    refine ⟨by rw [hrun], ?_, by decide⟩
    unfold MovieAgentGraph.fullRun
    rw [hrun]
    simp [hcl, hmsg]

/-- Witness for C3 at a concrete clarify decision carrying a message. -/
theorem c3_clarification_branch_witness :
    (({ route := "ask_clarification", confidence := 1, reason := "unclear",
        clarification_message := "Please clarify?" } : RouterDecision).route ≠
      "intent_classification") ∧
    (MovieAgentGraph.fullGraphRun
        (fun _ _ => .ok
          { route := "ask_clarification", confidence := 1, reason := "unclear",
            clarification_message := "Please clarify?" })
        (fun _ => .error "x") (fun _ _ => .error "x") (fun _ => .error "x")
        (MovieAgentGraph.initialState "Hello" [])).1 =
      ["smart_router", "ask_clarification"] ∧
    MovieAgentGraph.fullRun
        (fun _ _ => .ok
          { route := "ask_clarification", confidence := 1, reason := "unclear",
            clarification_message := "Please clarify?" })
        (fun _ => .error "x") (fun _ _ => .error "x") (fun _ => .error "x")
        "Hello" [] = "Please clarify?" := by
  have h := c3_clarification_branch
    { route := "ask_clarification", confidence := 1, reason := "unclear",
      clarification_message := "Please clarify?" }
    (fun _ => .error "x") (fun _ _ => .error "x") (fun _ => .error "x")
    "Hello" [] (by decide)
  exact ⟨by decide, h.1, h.2.1.trans (by decide)⟩

/-- C6: a failure raised by the workflow-engine invocation itself
propagates uncaught out of `query` — it is re-raised, not converted into
an error-terminal response — while a run whose failures are captured
inside a stage still returns normally. -/
theorem c6_engine_failure_propagates
    (q : String) (h : List (String × String)) (e : String)
    (chain : String → Except String IntentClassification) :
    MovieAgentGraph.query (fun _ => .error e) q h = .error e ∧
    MovieAgentGraph.query
        (fun s => .ok (MovieAgentGraph.graphInvoke chain s)) q h =
      .ok "sample response" := by
  exact ⟨rfl, rfl⟩

/-- C7: the message-posting endpoint rejects an empty or missing message
with 422 (request validation), an unknown session with 404, and a raised
controller invocation with 500 whose detail embeds the failure string. -/
theorem c7_send_message_statuses
    (sessions : List Nat) (conversations : List (Nat × List ChatMessage))
    (controller : String → List (String × String) → Except String String)
    (sid : Nat) (body : Option String)
    (mid amid ts ats : Nat) :
    (body = none ∨ body = some "" →
      (App.send_message sessions conversations controller sid body mid amid ts ats).1 =
        .error (422, "validation error")) ∧
    (∀ m, body = some m → m ≠ "" → sid ∉ sessions →
      (App.send_message sessions conversations controller sid body mid amid ts ats).1 =
        .error (404, "Session " ++ toString sid ++ " not found")) ∧
    (∀ m e, body = some m → m ≠ "" → sid ∈ sessions →
      controller m (format_history_for_llm ((App.convLookup conversations sid).getD [])) =
        .error e →
      (App.send_message sessions conversations controller sid body mid amid ts ats).1 =
        .error (500, "Error processing message: " ++ e) ∧
      substrOf e ("Error processing message: " ++ e)) := by
  refine ⟨?_, ?_, ?_⟩
  · intro hbody
    unfold App.send_message
    cases hbody with
    | inl h0 => rw [h0]; rfl
    | inr h0 => rw [h0]; rfl
  · intro m hm hne hnot
    unfold App.send_message
    rw [hm, validate_some_of_ne m hne]
    simp [hnot]
  · intro m e hm hne hmem hctl
    refine ⟨?_, substrOf_append_right _ _⟩
    unfold App.send_message
    rw [hm, validate_some_of_ne m hne]
    simp [hmem, hctl]

/-- Witness for C7 covering the three error statuses concretely. -/
theorem c7_send_message_statuses_witness :
    (App.send_message [5] [] (fun _ _ => .error "boom") 5 none 1 2 3 4).1 =
      .error (422, "validation error") ∧
    (App.send_message [5] [] (fun _ _ => .error "boom") 7 (some "hi") 1 2 3 4).1 =
      .error (404, "Session " ++ toString 7 ++ " not found") ∧
    (App.send_message [5] [] (fun _ _ => .error "boom") 5 (some "hi") 1 2 3 4).1 =
      .error (500, "Error processing message: boom") := by
  refine ⟨?_, ?_, ?_⟩
  · exact (c7_send_message_statuses [5] [] (fun _ _ => .error "boom") 5 none 1 2 3 4).1
      (Or.inl rfl)
  · exact (c7_send_message_statuses [5] [] (fun _ _ => .error "boom") 7 (some "hi")
      1 2 3 4).2.1 "hi" rfl (by decide) (by decide)
  · exact ((c7_send_message_statuses [5] [] (fun _ _ => .error "boom") 5 (some "hi")
      1 2 3 4).2.2 "hi" "boom" rfl (by decide) (by decide) rfl).1.trans
      (congrArg Except.error (by decide))

/-- C8: for a known session with stored turns and an accepted limit
1 ≤ N ≤ 100, the history endpoint returns the min(N, k) most recent
turns, in chronological order (a suffix of the stored sequence), and an
unknown session yields 404. -/
theorem c8_get_messages_recent
    (sessions : List Nat) (conversations : List (Nat × List ChatMessage))
    (sid : Nat) (turns : List ChatMessage) (n : Nat)
    (hmem : sid ∈ sessions) (hconv : App.convLookup conversations sid = some turns)
    (h1 : 1 ≤ n) (h100 : n ≤ 100) :
    App.get_messages sessions conversations sid n = .ok ((turns.reverse.take n).reverse) ∧
    ((turns.reverse.take n).reverse).length = min n turns.length ∧
    (turns.reverse.take n).reverse <:+ turns ∧
    (∀ s2, s2 ∉ sessions →
      App.get_messages sessions conversations s2 n =
        .error (404, "Session " ++ toString s2 ++ " not found")) := by
  refine ⟨?_, ?_, ?_, ?_⟩
  · unfold App.get_messages
    rw [if_pos hmem, hconv]
    simp [lastN_eq ChatMessage turns n]
  · simp
  · rw [← lastN_eq ChatMessage turns n]
    by_cases hlen : turns.length > n
    · simp only [hlen, if_pos]
      exact List.drop_suffix _ _
    · simp only [hlen, if_neg]
      exact List.suffix_refl turns
  · intro s2 hs2
    unfold App.get_messages
    rw [if_neg hs2]

/-- Witness for C8: a three-turn session queried with limit 2 returns the
two most recent turns in order. -/
theorem c8_get_messages_recent_witness :
    App.get_messages [1] [(1, [⟨10, "user", "a", 1⟩, ⟨11, "assistant", "b", 2⟩,
        ⟨12, "user", "c", 3⟩])] 1 2 =
      .ok [⟨11, "assistant", "b", 2⟩, ⟨12, "user", "c", 3⟩] ∧
    App.get_messages [1] [(1, [⟨10, "user", "a", 1⟩, ⟨11, "assistant", "b", 2⟩,
        ⟨12, "user", "c", 3⟩])] 9 2 =
      .error (404, "Session " ++ toString 9 ++ " not found") := by
  have h := c8_get_messages_recent [1]
    [(1, [⟨10, "user", "a", 1⟩, ⟨11, "assistant", "b", 2⟩, ⟨12, "user", "c", 3⟩])]
    1 [⟨10, "user", "a", 1⟩, ⟨11, "assistant", "b", 2⟩, ⟨12, "user", "c", 3⟩] 2
    (by decide) (by decide) (by decide) (by decide)
  exact ⟨h.1.trans (congrArg Except.ok (by decide)), h.2.2.2 9 (by decide)⟩

/-- C9: history formatting preserves length and order, mapping the i-th
stored turn to its {role, content} pair with identifiers and timestamps
stripped. -/
theorem c9_format_history_pairs (h : List ChatMessage) :
    (format_history_for_llm h).length = h.length ∧
    ∀ i : Nat, (format_history_for_llm h)[i]? =
      (h[i]?).map (fun msg => (msg.role, msg.content)) := by
  have hmap : format_history_for_llm h = h.map (fun msg => (msg.role, msg.content)) := by
    unfold format_history_for_llm
    rw [format_foldl_eq]
    simp
  constructor
  · rw [hmap]
    simp
  · intro i
    rw [hmap]
    exact List.getElem?_map _ _ _

/-- C10: when the controller invocation raises, the message-posting
endpoint leaves the conversation store unchanged — neither the user turn
nor an assistant turn is appended — and reports the 500 error. -/
theorem c10_atomic_on_controller_error
    (sessions : List Nat) (conversations : List (Nat × List ChatMessage))
    (controller : String → List (String × String) → Except String String)
    (sid : Nat) (m e : String) (mid amid ts ats : Nat)
    (hmem : sid ∈ sessions) (hm : m ≠ "")
    (hctl : controller m (format_history_for_llm ((App.convLookup conversations sid).getD [])) =
      .error e) :
    (App.send_message sessions conversations controller sid (some m) mid amid ts ats).2 =
      conversations ∧
    (App.send_message sessions conversations controller sid (some m) mid amid ts ats).1 =
      .error (500, "Error processing message: " ++ e) := by
  unfold App.send_message
  rw [validate_some_of_ne m hm]
  constructor
  · simp [hmem, hctl]
  · simp [hmem, hctl]

/-- Witness for C10: a failing controller leaves a concrete store
untouched. -/
theorem c10_atomic_on_controller_error_witness :
    (App.send_message [5] [(5, [⟨10, "user", "a", 1⟩])] (fun _ _ => .error "boom")
        5 (some "hi") 1 2 3 4).2 = [(5, [⟨10, "user", "a", 1⟩])] ∧
    (App.send_message [5] [(5, [⟨10, "user", "a", 1⟩])] (fun _ _ => .error "boom")
        5 (some "hi") 1 2 3 4).1 =
      .error (500, "Error processing message: boom") := by
  have h := c10_atomic_on_controller_error [5] [(5, [⟨10, "user", "a", 1⟩])]
    (fun _ _ => .error "boom") 5 "hi" "boom" 1 2 3 4 (by decide) (by decide) rfl
  exact ⟨h.1, h.2.trans (congrArg Except.error (by decide))⟩

end ConvAI
